import Mathlib

/-!
# Verification of the homectl LEDNET protocol core

Shallow embedding of the homectl repository (src/src/lib.rs,
src/homectl_macros/src/lib.rs) in Lean 4.

Modelling conventions:
* `u8`/`u16` values are `ℕ` with explicit `% 256` where the Rust code uses
  wrapping arithmetic; byte-range side conditions appear as hypotheses.
* `f32`/`f64` arithmetic is modelled exactly over `ℚ`.  Every floating
  computation in the code stays well inside the normal range of `f32`
  (magnitudes between roughly `2⁻⁹` and `2¹³`), and the claims under
  verification concern the algebraic structure of the formulas, not
  rounding at the last bit.
* Rust numeric casts `expr as u16` / `expr as u8` of nonnegative in-range
  floats truncate toward zero, modelled by `ratTrunc` (floor for `q ≥ 0`).
* network I/O (TCP exchanges, UDP datagrams) is abstracted by oracles:
  an `Oracle` gives, for each successive TCP exchange, either an I/O error
  or the bytes read in reply to the written frame.
-/

namespace Homectl

/-- Rust `u8::wrapping_add` folded over a payload, starting from `0u8`:
the checksum byte produced by the `fin_cmd!` macro and recomputed by
`LedNet::refresh` (src/src/lib.rs lines 162-166 and 329-337). -/
def chksum (payload : List ℕ) : ℕ :=
  payload.foldl (fun acc b => (acc + b) % 256) 0

/-- The `fin_cmd!` macro: a comma separated list of byte values with its
checksum appended (src/src/lib.rs lines 160-166). -/
def fin_cmd (payload : List ℕ) : List ℕ :=
  payload ++ [chksum payload]

/-- Truncation of a rational toward zero into `ℕ`; this is the Rust cast
`x as u16` / `x as u8` for the nonnegative in-range floats the code
produces. -/
def ratTrunc (q : ℚ) : ℕ :=
  (⌊q⌋).toNat

namespace temp

def MIN_TEMP : ℕ := 2800
def MAX_TEMP : ℕ := 6500
def TEMP_RANGE : ℕ := MAX_TEMP - MIN_TEMP

/-- `temp::to_kelvin` (src/src/lib.rs lines 204-219): converts the device
internal warm/cold byte pair to Kelvin.  The `f32` arithmetic of the source
(`wc = warm + cold`, `leftover = 255 - wc`,
`warm' = warm + leftover * (warm / wc)`,
`k = (255 - warm') * (TEMP_RANGE / 255) + MIN_TEMP`, `k as u16`) is
modelled exactly over `ℚ`. -/
def to_kelvin (warm cold : ℕ) : ℕ :=
  if warm ≠ 0 ∨ cold ≠ 0 then
    ratTrunc
      ((255 - ((warm : ℚ) + (255 - ((warm : ℚ) + (cold : ℚ))) *
          ((warm : ℚ) / ((warm : ℚ) + (cold : ℚ))))) *
        ((TEMP_RANGE : ℚ) / 255) + (MIN_TEMP : ℚ))
  else
    0

/-- `temp::to_warm_cold` (src/src/lib.rs lines 223-229): converts Kelvin to
the two-byte warm/cold representation.  `kelvin.clamp(MIN_TEMP, MAX_TEMP)`
is `min (max kelvin MIN_TEMP) MAX_TEMP`; `.ceil() as u8` is `⌈·⌉` (the
ceiling of the in-range nonnegative float is already an integer, so the
cast does not change it). -/
def to_warm_cold (kelvin : ℕ) : ℕ × ℕ :=
  ((⌈(255 : ℚ) * (1 - ((min (max kelvin MIN_TEMP) MAX_TEMP - MIN_TEMP : ℕ) : ℚ) /
      (TEMP_RANGE : ℚ))⌉).toNat,
   (⌈(255 : ℚ) * (((min (max kelvin MIN_TEMP) MAX_TEMP - MIN_TEMP : ℕ) : ℚ) /
      (TEMP_RANGE : ℚ))⌉).toNat)

/-- Stated from the spec's words (§4.1, C2) for the refinement comparison:
`adjustedWarm = w + (255 - (w + c)) * (w / (w + c))`, then
`kelvin = (255 - adjustedWarm) * (6500 - 2800) / 255 + 2800`, truncated to
an integer; `(0, 0)` maps to `0`. -/
def to_kelvin_spec (warm cold : ℕ) : ℕ :=
  if warm = 0 ∧ cold = 0 then 0
  else
    ratTrunc
      ((255 - ((warm : ℚ) + (255 - ((warm : ℚ) + (cold : ℚ))) *
          ((warm : ℚ) / ((warm : ℚ) + (cold : ℚ))))) *
        (6500 - 2800) / 255 + 2800)

/-- Stated from the spec's words (§4.1, C3) for the refinement comparison:
clamp to `[2800, 6500]`, `t = (kelvin - 2800)/(6500 - 2800)`,
`warm = ceil(255*(1 - t))`, `cold = ceil(255*t)`. -/
def to_warm_cold_spec (kelvin : ℕ) : ℕ × ℕ :=
  ((⌈(255 : ℚ) * (1 - ((min (max kelvin 2800) 6500 - 2800 : ℕ) : ℚ) /
      ((6500 - 2800 : ℕ) : ℚ))⌉).toNat,
   (⌈(255 : ℚ) * (((min (max kelvin 2800) 6500 - 2800 : ℕ) : ℚ) /
      ((6500 - 2800 : ℕ) : ℚ))⌉).toNat)

end temp

/-- I/O failure kinds of the `std::io` layer.  `other` covers OS-level
errors (connect failures, read/write failures); `timedOut` is the kind a
blocking read returns when the read timeout elapses. -/
inductive IoErr where
  | timedOut
  | invalidChecksum
  | incorrectResponse
  | sendIncomplete
  | other (n : ℕ)
deriving DecidableEq

/-- `std::net::SocketAddr`, reduced to the parts the code consults. -/
structure SockAddr where
  ip : ℕ
  port : ℕ
deriving DecidableEq

/-- Modelled from the spec: the `color_processing::Color` type is an
external collaborator (spec §1); only its RGB byte fields and HSV
conversions are consumed by the code under src/. -/
structure Color where
  red : ℕ
  green : ℕ
  blue : ℕ
deriving DecidableEq

/-- `Color::new_rgb` of the external crate. -/
def Color.new_rgb (r g b : ℕ) : Color :=
  ⟨r, g, b⟩

/-- Modelled from the spec: `Color::get_hsva` of the external
color_processing crate, the standard RGB→HSV conversion (hue in degrees,
saturation and value in `[0, 1]`, alpha `1`), over `ℚ`. -/
def Color.get_hsva (c : Color) : ℚ × ℚ × ℚ × ℚ :=
  let r : ℚ := (c.red : ℚ) / 255
  let g : ℚ := (c.green : ℚ) / 255
  let b : ℚ := (c.blue : ℚ) / 255
  let maxc : ℚ := max r (max g b)
  let minc : ℚ := min r (min g b)
  let d : ℚ := maxc - minc
  let s : ℚ := if maxc = 0 then 0 else d / maxc
  let h : ℚ :=
    if d = 0 then 0
    else if maxc = r then 60 * ((g - b) / d) + (if g < b then 360 else 0)
    else if maxc = g then 60 * ((b - r) / d) + 120
    else 60 * ((r - g) / d) + 240
  (h, s, maxc, 1)

/-- Modelled from the spec: `Color::new_hsv` of the external
color_processing crate, the standard sector-based HSV→RGB conversion. -/
def Color.new_hsv (h s v : ℚ) : Color :=
  let i : ℤ := ⌊h / 60⌋ % 6
  let f : ℚ := h / 60 - (⌊h / 60⌋ : ℤ)
  let p : ℚ := v * (1 - s)
  let q : ℚ := v * (1 - f * s)
  let t : ℚ := v * (1 - (1 - f) * s)
  let rgb : ℚ × ℚ × ℚ :=
    if i = 0 then (v, t, p)
    else if i = 1 then (q, v, p)
    else if i = 2 then (p, v, t)
    else if i = 3 then (p, q, v)
    else if i = 4 then (t, p, v)
    else (v, p, q)
  ⟨ratTrunc (255 * rgb.1), ratTrunc (255 * rgb.2.1), ratTrunc (255 * rgb.2.2)⟩

namespace led_net

def SUPPORTED : List String := ["HF-LPB100-ZJ200"]
def DISCO_PORT : ℕ := 48899
def PORT : ℕ := 5577

namespace op
def SET_POWER : ℕ := 0x71
def SET_COLOR : ℕ := 0x31
def GET_STATE : ℕ := 0x81
end op

namespace word
def TERMINATOR : ℕ := 0x0f
def ON : ℕ := 0x23
def OFF : ℕ := 0x24
def WRITE_COLORS : ℕ := 0xf0
def WRITE_WHITES : ℕ := 0x0f
def WRITE_BOTH : ℕ := Nat.land WRITE_COLORS WRITE_WHITES
end word

/-- The `LedNet` struct (src/src/lib.rs lines 168-180): address, model and
the shadow state. -/
structure LedNet where
  addr : SockAddr
  model : String
  is_on : Bool
  rgb_color_bytes : ℕ × ℕ × ℕ
  cct_bytes : ℕ × ℕ
  rgb_brightness : ℚ
  cct_temperature : ℕ
  cct_brightness : ℚ
deriving DecidableEq

/-- Abstraction of the device side of the TCP transport: for the `n`-th
short-lived TCP exchange of a run (connect, write `frame`, read), the
oracle gives either an I/O failure (connect, write, read or timeout
error) or the bytes read. -/
def Oracle : Type := ℕ → List ℕ → Except IoErr (List ℕ)

/-- `LedNet::read_response` (src/src/lib.rs lines 559-572): reading with
`read_exact` yields exactly `len` bytes or an I/O error. -/
def read_response (ω : Oracle) (n : ℕ) (frame : List ℕ) (len : ℕ) :
    Except IoErr (List ℕ) :=
  match ω n frame with
  | .error e => .error e
  | .ok bs => if bs.length = len then .ok bs else .error .timedOut

/-- `LedNet::write_command` (src/src/lib.rs lines 537-557): write the
frame, read `expected.len()` bytes, fail unless they equal `expected`.
Returns the next exchange index. -/
def write_command (ω : Oracle) (n : ℕ) (command expected : List ℕ) :
    Except IoErr ℕ :=
  match read_response ω n command expected.length with
  | .error e => .error e
  | .ok response =>
      if response = expected then .ok (n + 1) else .error .incorrectResponse

/-- The state-query frame `fin_cmd![op::GET_STATE, 0x8a, 0x8b]`
(src/src/lib.rs lines 313-315). -/
def GET_STATE_MSG : List ℕ := fin_cmd [op.GET_STATE, 0x8a, 0x8b]

def STATE_RESP_LEN : ℕ := 14

/-- The shadow-state update performed by `LedNet::refresh` after checksum
validation (src/src/lib.rs lines 339-357): decode the 14-byte state reply
into the cached fields. -/
def setShadow (d : LedNet) (state : List ℕ) : LedNet :=
  let s : ℕ → ℕ := fun i => state.getD i 0
  let rgb_b : ℚ := (Color.get_hsva (Color.new_rgb (s 6) (s 7) (s 8))).2.2.1
  let cct_b : ℚ := 1 - (((255 - ((s 9 : ℤ) + (s 11 : ℤ))) : ℤ) : ℚ) / 255
  { d with
    is_on := s 2 == word.ON
    rgb_color_bytes := (s 6, s 7, s 8)
    cct_bytes := (s 9, s 11)
    rgb_brightness := rgb_b
    cct_temperature := temp.to_kelvin (s 9) (s 11)
    cct_brightness := cct_b }

/-- `LedNet::refresh` (src/src/lib.rs lines 310-358): send the state
query, read exactly 14 bytes, validate the checksum, decode into shadow
state.  On any error the device state is left untouched (the Rust code
returns before the assignments). -/
def refresh (ω : Oracle) (d : LedNet) (n : ℕ) :
    Except IoErr (LedNet × ℕ) :=
  match read_response ω n GET_STATE_MSG STATE_RESP_LEN with
  | .error e => .error e
  | .ok state =>
      if state.getD (STATE_RESP_LEN - 1) 0 = chksum (state.take (STATE_RESP_LEN - 1)) then
        .ok (setShadow d state, n + 1)
      else
        .error .invalidChecksum

def ON_COMMAND : List ℕ := fin_cmd [op.SET_POWER, word.ON, word.TERMINATOR]
def ON_RESPONSE : List ℕ := fin_cmd [word.TERMINATOR, op.SET_POWER, word.ON]
def OFF_COMMAND : List ℕ := fin_cmd [op.SET_POWER, word.OFF, word.TERMINATOR]
def OFF_RESPONSE : List ℕ := fin_cmd [word.TERMINATOR, op.SET_POWER, word.OFF]

/-- `SmartDevice::set_on` for `LedNet` (src/src/lib.rs lines 360-384). -/
def set_on (ω : Oracle) (d : LedNet) (turnOn : Bool) (n : ℕ) :
    Except IoErr (LedNet × ℕ) :=
  match write_command ω n (if turnOn then ON_COMMAND else OFF_COMMAND)
      (if turnOn then ON_RESPONSE else OFF_RESPONSE) with
  | .error e => .error e
  | .ok n1 => refresh ω d n1

/-- `Rgb::rgb_exact` for `LedNet` (src/src/lib.rs lines 448-454). -/
def rgb_exact (d : LedNet) : Color :=
  Color.new_rgb d.rgb_color_bytes.1 d.rgb_color_bytes.2.1 d.rgb_color_bytes.2.2

/-- `Rgb::rgb_color` for `LedNet` (src/src/lib.rs lines 439-442). -/
def rgb_color (d : LedNet) : Color :=
  let hsva := (rgb_exact d).get_hsva
  Color.new_hsv hsva.1 hsva.2.1 1

/-- `Rgb::rgb_set_exact` for `LedNet` (src/src/lib.rs lines 404-418). -/
def rgb_set_exact (ω : Oracle) (d : LedNet) (color : Color) (n : ℕ) :
    Except IoErr (LedNet × ℕ) :=
  let command := fin_cmd [op.SET_COLOR, color.red, color.green, color.blue,
    0, 0, word.WRITE_COLORS, word.TERMINATOR]
  match write_command ω n command [] with
  | .error e => .error e
  | .ok n1 => refresh ω d n1

/-- `Rgb::rgb_set` for `LedNet` (src/src/lib.rs lines 420-427). -/
def rgb_set (ω : Oracle) (d : LedNet) (color : Color) (brightness : ℚ) (n : ℕ) :
    Except IoErr (LedNet × ℕ) :=
  let hsva := color.get_hsva
  rgb_set_exact ω d (Color.new_hsv hsva.1 hsva.2.1 brightness) n

/-- `Rgb::rgb_set_color` for `LedNet` (src/src/lib.rs lines 429-432). -/
def rgb_set_color (ω : Oracle) (d : LedNet) (color : Color) (n : ℕ) :
    Except IoErr (LedNet × ℕ) :=
  match refresh ω d n with
  | .error e => .error e
  | .ok (d1, n1) => rgb_set ω d1 color d1.rgb_brightness n1

/-- `Rgb::rgb_set_brightness` for `LedNet` (src/src/lib.rs lines 434-437). -/
def rgb_set_brightness (ω : Oracle) (d : LedNet) (brightness : ℚ) (n : ℕ) :
    Except IoErr (LedNet × ℕ) :=
  match refresh ω d n with
  | .error e => .error e
  | .ok (d1, n1) => rgb_set ω d1 (rgb_color d1) brightness n1

/-- Rust `f32::clamp(0.0, 1.0)` over the rational model. -/
def clampQ (b : ℚ) : ℚ := min (max b 0) 1

/-- `Cct::cct_set` for `LedNet` (src/src/lib.rs lines 458-473). -/
def cct_set (ω : Oracle) (d : LedNet) (kelvin : ℕ) (brightness : ℚ) (n : ℕ) :
    Except IoErr (LedNet × ℕ) :=
  let wc := temp.to_warm_cold kelvin
  let command := fin_cmd [op.SET_COLOR, 0, 0, 0,
    ratTrunc ((wc.1 : ℚ) * clampQ brightness),
    ratTrunc ((wc.2 : ℚ) * clampQ brightness),
    word.WRITE_WHITES, word.TERMINATOR]
  match write_command ω n command [] with
  | .error e => .error e
  | .ok n1 => refresh ω d n1

/-- `Cct::cct_set_temperature` for `LedNet` (src/src/lib.rs lines 475-478). -/
def cct_set_temperature (ω : Oracle) (d : LedNet) (kelvin : ℕ) (n : ℕ) :
    Except IoErr (LedNet × ℕ) :=
  match refresh ω d n with
  | .error e => .error e
  | .ok (d1, n1) => cct_set ω d1 kelvin d1.cct_brightness n1

/-- `Cct::cct_set_brightness` for `LedNet` (src/src/lib.rs lines 480-483). -/
def cct_set_brightness (ω : Oracle) (d : LedNet) (brightness : ℚ) (n : ℕ) :
    Except IoErr (LedNet × ℕ) :=
  match refresh ω d n with
  | .error e => .error e
  | .ok (d1, n1) => cct_set ω d1 d1.cct_temperature brightness n1

/-- The partially default-initialized device built by `disco_recv` on a
supported discovery reply (src/src/lib.rs lines 613-624). -/
def initDev (addr : SockAddr) (model : String) : LedNet :=
  { addr := { ip := addr.ip, port := PORT }
    model := model
    is_on := false
    rgb_color_bytes := (0, 0, 0)
    cct_bytes := (0, 0)
    rgb_brightness := 0
    cct_temperature := 0
    cct_brightness := 0 }

/-- Outcome of one `recv_from` on the discovery socket: an I/O error
(`timedOut` when the read timeout elapses), or a datagram and its sender.
The datagram is modelled at the field level: `none` stands for bytes that
are not valid UTF-8; `some fields` for a textual reply already split on
`','` (the code consults nothing of the reply but its comma-split
fields). -/
def DiscoReply : Type := Except IoErr (Option (List String) × SockAddr)

/-- `LedNet::disco_recv` (src/src/lib.rs lines 588-633): receive one
datagram (propagating receive errors, timeouts included), parse
`ip,mac,model`, skip unsupported or malformed replies, and on a supported
model build the device and refresh it, propagating a refresh failure. -/
def disco_recv (recv : DiscoReply) (ω : Oracle) (n : ℕ) :
    Except IoErr (Option LedNet × ℕ) :=
  match recv with
  | .error e => .error e
  | .ok (response, addr) =>
      match response with
      | none => .ok (none, n)
      | some fields =>
          match fields.get? 2 with
          | none => .ok (none, n)
          | some m_id =>
              match SUPPORTED.find? (fun e => e == m_id) with
              | none => .ok (none, n)
              | some model =>
                  match refresh ω (initDev addr model) n with
                  | .error e => .error e
                  | .ok (dev, n1) => .ok (some dev, n1)

/-- `SmartDevice::from_address` for `LedNet` (src/src/lib.rs lines
250-264): bind/probe (abstracted by `send`), then one `disco_recv` whose
error — a receive timeout included — propagates via `?`. -/
def from_address (send : Except IoErr Unit) (recv : DiscoReply) (ω : Oracle)
    (n : ℕ) : Except IoErr (Option LedNet) :=
  match send with
  | .error e => .error e
  | .ok _ =>
      match disco_recv recv ω n with
      | .error e => .error e
      | .ok (some dev, _) => .ok (some dev)
      | .ok (none, _) => .ok none

/-- The receive loop of `SmartDevice::discover` (src/src/lib.rs lines
291-300): `while let Ok(maybe_dev) = disco_recv(..)` — the loop body runs
only while `disco_recv` returns `Ok`; the first error (the read timeout,
or a failed initial refresh) ends the loop.  `recvs` is the stream of
successive `recv_from` outcomes; in a real run it ends with the timeout
error, so the `[]` case is unreachable. -/
def discoverLoop (recvs : List DiscoReply) (ω : Oracle) (n : ℕ) : List LedNet :=
  match recvs with
  | [] => []
  | recv :: rest =>
      match disco_recv recv ω n with
      | .error _ => []
      | .ok (some dev, n1) => dev :: discoverLoop rest ω n1
      | .ok (none, n1) => discoverLoop rest ω n1

/-- `SmartDevice::discover` for `LedNet` (src/src/lib.rs lines 266-307):
socket setup and probe sends (abstracted by `setup`), then the receive
loop; `Ok(None)` when nothing was found. -/
def discover (setup : Except IoErr Unit) (recvs : List DiscoReply)
    (ω : Oracle) : Except IoErr (Option (List LedNet)) :=
  match setup with
  | .error e => .error e
  | .ok _ =>
      let devs := discoverLoop recvs ω 0
      if devs.isEmpty then .ok none else .ok (some devs)

end led_net

namespace mult

open led_net

/-- `mult::Error` (src/src/lib.rs lines 678-682). -/
inductive Error where
  | commandNotSupported
  | ioFail (e : IoErr)
deriving DecidableEq

/-- `mult::Response` (src/src/lib.rs lines 702-710). -/
inductive Response where
  | color (c : Color)
  | brightness (b : ℚ)
  | temperature (k : ℕ)
  | isOn (b : Bool)
  | address (a : ℕ)
  | port (p : ℕ)
deriving DecidableEq

/-- `mult::Command` (src/src/lib.rs lines 725-753). -/
inductive Command where
  | on
  | off
  | getAddress
  | getPort
  | isOn
  | rgbSet (c : Color) (b : ℚ)
  | rgbSetExact (c : Color)
  | rgbSetColor (c : Color)
  | rgbSetBrightness (b : ℚ)
  | rgbGetColor
  | rgbGetBrightness
  | rgbGetExact
  | cctSet (k : ℕ) (b : ℚ)
  | cctSetTemperature (k : ℕ)
  | cctSetBrightness (b : ℚ)
  | cctGetTemperature
  | cctGetBrightness
  | monoSet (b : ℚ)
  | monoGet
deriving DecidableEq

/-- Result type of the capability handlers: `Ok(Option<Response>)` or an
`Error`, threading the device state and the exchange counter. -/
def HandlerResult : Type := Except Error (Option Response × LedNet × ℕ)

/-- `impl<T> SmartDeviceCommands for T where T: SmartDevice`
(src/src/lib.rs lines 771-795), instantiated at the `LedNet` model; `?`
lifts `io::Error` into `Error::Io`. -/
def smartDeviceExec (ω : Oracle) (d : LedNet) (n : ℕ) (command : Command) :
    HandlerResult :=
  match command with
  | .on =>
      match set_on ω d true n with
      | .error e => .error (.ioFail e)
      | .ok (d', n') => .ok (none, d', n')
  | .off =>
      match set_on ω d false n with
      | .error e => .error (.ioFail e)
      | .ok (d', n') => .ok (none, d', n')
  | .getAddress => .ok (some (.address d.addr.ip), d, n)
  | .getPort => .ok (some (.port d.addr.port), d, n)
  | .isOn => .ok (some (.isOn d.is_on), d, n)
  | _ => .error .commandNotSupported

/-- `impl<T> RgbCommands for T where T: Rgb` (src/src/lib.rs lines
797-828), instantiated at the `LedNet` model. -/
def rgbExec (ω : Oracle) (d : LedNet) (n : ℕ) (command : Command) :
    HandlerResult :=
  match command with
  | .rgbSet c b =>
      match rgb_set ω d c b n with
      | .error e => .error (.ioFail e)
      | .ok (d', n') => .ok (none, d', n')
  | .rgbSetExact c =>
      match rgb_set_exact ω d c n with
      | .error e => .error (.ioFail e)
      | .ok (d', n') => .ok (none, d', n')
  | .rgbSetColor c =>
      match rgb_set_color ω d c n with
      | .error e => .error (.ioFail e)
      | .ok (d', n') => .ok (none, d', n')
  | .rgbSetBrightness b =>
      match rgb_set_brightness ω d b n with
      | .error e => .error (.ioFail e)
      | .ok (d', n') => .ok (none, d', n')
  | .rgbGetColor => .ok (some (.color (rgb_color d)), d, n)
  | .rgbGetBrightness => .ok (some (.brightness d.rgb_brightness), d, n)
  | .rgbGetExact => .ok (some (.color (rgb_exact d)), d, n)
  | _ => .error .commandNotSupported

/-- `impl<T> CctCommands for T where T: Cct` (src/src/lib.rs lines
830-854), instantiated at the `LedNet` model. -/
def cctExec (ω : Oracle) (d : LedNet) (n : ℕ) (command : Command) :
    HandlerResult :=
  match command with
  | .cctSet k b =>
      match cct_set ω d k b n with
      | .error e => .error (.ioFail e)
      | .ok (d', n') => .ok (none, d', n')
  | .cctSetTemperature k =>
      match cct_set_temperature ω d k n with
      | .error e => .error (.ioFail e)
      | .ok (d', n') => .ok (none, d', n')
  | .cctSetBrightness b =>
      match cct_set_brightness ω d b n with
      | .error e => .error (.ioFail e)
      | .ok (d', n') => .ok (none, d', n')
  | .cctGetTemperature => .ok (some (.temperature d.cct_temperature), d, n)
  | .cctGetBrightness => .ok (some (.brightness d.cct_brightness), d, n)
  | _ => .error .commandNotSupported

/-- The capability handlers, in the order the `#[derive(Dev)]` macro emits
them for `Device::LedNet` (src/src/lib.rs lines 672-676 declare
`cmd = "RgbCommands", cmd = "CctCommands"`; the macro appends the default
`SmartDeviceCommands` last, src/homectl_macros/src/lib.rs lines 44-46 and
91-97). -/
inductive Handler where
  | rgb
  | cct
  | smartDevice
deriving DecidableEq

/-- Is a handler result the `Err(CommandNotSupported)` "try the next
capability" signal? -/
def HandlerResult.isCNS : HandlerResult → Bool
  | .error .commandNotSupported => true
  | _ => false

/-- The dispatch `exec` the `#[derive(Dev)]` macro generates for
`Device::LedNet` (src/homectl_macros/src/lib.rs lines 159-187),
instrumented with the list of handlers invoked: each handler is tried in
declared order; `Err(CommandNotSupported)` falls through to the next
handler, any other result returns immediately; when every handler signals
`CommandNotSupported` the dispatch returns `Err(CommandNotSupported)`. -/
def execTrace (ω : Oracle) (d : LedNet) (n : ℕ) (command : Command) :
    HandlerResult × List Handler :=
  match rgbExec ω d n command with
  | .error .commandNotSupported =>
      match cctExec ω d n command with
      | .error .commandNotSupported =>
          match smartDeviceExec ω d n command with
          | .error .commandNotSupported =>
              (.error .commandNotSupported, [.rgb, .cct, .smartDevice])
          | r => (r, [.rgb, .cct, .smartDevice])
      | r => (r, [.rgb, .cct])
  | r => (r, [.rgb])

/-- `Commandable::exec` for `Device::LedNet`: the result component of the
instrumented dispatch. -/
def exec (ω : Oracle) (d : LedNet) (n : ℕ) (command : Command) :
    HandlerResult :=
  (execTrace ω d n command).1

end mult

/-! ## Claims about the numeric conversions -/

/-- C2: for every pair of warm/cold bytes `(w, c)`: if both are zero then
`to_kelvin w c = 0` exactly; otherwise `to_kelvin w c` equals the linear
interpolation `(255 - adjustedWarm) * (6500 - 2800)/255 + 2800` truncated
to an integer, with `adjustedWarm = w + (255 - (w + c)) * (w / (w + c))`
(the source's `f32` arithmetic modelled exactly over `ℚ`). -/
theorem to_kelvin_matches_spec (w c : ℕ) (hw : w < 256) (hc : c < 256) :
    temp.to_kelvin 0 0 = 0 ∧ temp.to_kelvin w c = temp.to_kelvin_spec w c := by
  constructor
  · simp [temp.to_kelvin]
  · by_cases h : w = 0 ∧ c = 0
    · obtain ⟨h1, h2⟩ := h
      subst h1; subst h2
      simp [temp.to_kelvin, temp.to_kelvin_spec]
    · have h' : w ≠ 0 ∨ c ≠ 0 := by tauto
      rw [temp.to_kelvin, temp.to_kelvin_spec, if_pos h', if_neg h]
      have hr : ((temp.TEMP_RANGE : ℕ) : ℚ) = 3700 := by
        norm_num [temp.TEMP_RANGE, temp.MAX_TEMP, temp.MIN_TEMP]
      have hm : ((temp.MIN_TEMP : ℕ) : ℚ) = 2800 := by
        norm_num [temp.MIN_TEMP]
      rw [hr, hm]
      congr 1
      ring

/-- Witness for C2 at the concrete byte pair `(5, 7)`. -/
theorem to_kelvin_matches_spec_witness :
    temp.to_kelvin 0 0 = 0 ∧ temp.to_kelvin 5 7 = temp.to_kelvin_spec 5 7 :=
  to_kelvin_matches_spec 5 7 (by decide) (by decide)

/-- C3: `to_warm_cold` clamps its input to `[2800, 6500]`, computes
`t = (k - 2800)/(6500 - 2800)` and returns
`(ceil(255*(1 - t)), ceil(255*t))`; at the bounds it yields `(255, 0)`
and `(0, 255)`, and inputs outside the range give the same result as the
nearer bound. -/
theorem to_warm_cold_clamped_interpolation :
    (∀ k : ℕ, temp.to_warm_cold k = temp.to_warm_cold_spec k) ∧
    temp.to_warm_cold 2800 = (255, 0) ∧
    temp.to_warm_cold 6500 = (0, 255) ∧
    (∀ k : ℕ, k < 2800 → temp.to_warm_cold k = temp.to_warm_cold 2800) ∧
    (∀ k : ℕ, 6500 < k → temp.to_warm_cold k = temp.to_warm_cold 6500) := by
  refine ⟨fun k => ?_, ?_, ?_, fun k hk => ?_, fun k hk => ?_⟩
  · norm_num [temp.to_warm_cold, temp.to_warm_cold_spec, temp.MIN_TEMP,
      temp.MAX_TEMP, temp.TEMP_RANGE]
  · norm_num [temp.to_warm_cold, temp.MIN_TEMP, temp.MAX_TEMP,
      temp.TEMP_RANGE, Int.ceil_ofNat]
    decide
  · norm_num [temp.to_warm_cold, temp.MIN_TEMP, temp.MAX_TEMP,
      temp.TEMP_RANGE, Int.ceil_ofNat]
    decide
  · have h1 : min (max k temp.MIN_TEMP) temp.MAX_TEMP =
        min (max 2800 temp.MIN_TEMP) temp.MAX_TEMP := by
      simp only [temp.MIN_TEMP, temp.MAX_TEMP]
      omega
    rw [temp.to_warm_cold, temp.to_warm_cold, h1]
  · have h1 : min (max k temp.MIN_TEMP) temp.MAX_TEMP =
        min (max 6500 temp.MIN_TEMP) temp.MAX_TEMP := by
      simp only [temp.MIN_TEMP, temp.MAX_TEMP]
      omega
    rw [temp.to_warm_cold, temp.to_warm_cold, h1]

/-- Witness for C3 at inputs outside the supported range. -/
theorem to_warm_cold_clamped_interpolation_witness :
    temp.to_warm_cold 1000 = temp.to_warm_cold 2800 ∧
    temp.to_warm_cold 7000 = temp.to_warm_cold 6500 :=
  ⟨to_warm_cold_clamped_interpolation.2.2.2.1 1000 (by decide),
   to_warm_cold_clamped_interpolation.2.2.2.2 7000 (by decide)⟩

/-! ## Checksum and refresh helper lemmas -/

theorem chksum_foldl (payload : List ℕ) (acc : ℕ) :
    payload.foldl (fun a b => (a + b) % 256) (acc % 256) =
      (acc + payload.sum) % 256 := by
  induction payload generalizing acc with
  | nil => simp
  | cons x xs ih =>
      simp only [List.foldl_cons, List.sum_cons]
      have h1 : (acc % 256 + x) % 256 = (acc + x) % 256 := by omega
      rw [h1, ih (acc + x)]
      omega

/-- The `fin_cmd!` checksum byte is the sum of the payload modulo 256. -/
theorem chksum_eq_sum (payload : List ℕ) : chksum payload = payload.sum % 256 := by
  have h := chksum_foldl payload 0
  simpa [chksum] using h

theorem chksum_lt (payload : List ℕ) : chksum payload < 256 := by
  rw [chksum_eq_sum]
  omega

theorem getD_append_self (l : List ℕ) (b : ℕ) : (l ++ [b]).getD l.length 0 = b := by
  rw [List.getD_append_right _ _ _ _ (le_refl _)]
  simp

open led_net in
/-- `refresh` succeeds on a 14-byte reply with a valid trailing checksum,
decoding it into shadow state. -/
theorem refresh_ok (ω : Oracle) (d : LedNet) (n : ℕ) (state : List ℕ)
    (hω : ω n GET_STATE_MSG = .ok state) (hlen : state.length = 14)
    (hck : state.getD 13 0 = chksum (state.take 13)) :
    refresh ω d n = .ok (setShadow d state, n + 1) := by
  rw [refresh]
  simp only [read_response, hω, STATE_RESP_LEN, hlen, if_true, hck,
    Nat.reduceSub]

open led_net in
/-- `refresh` rejects a 14-byte reply whose trailing byte differs from the
checksum of its first 13 bytes; no shadow-state update is produced. -/
theorem refresh_err (ω : Oracle) (d : LedNet) (n : ℕ) (state : List ℕ)
    (hω : ω n GET_STATE_MSG = .ok state) (hlen : state.length = 14)
    (hck : state.getD 13 0 ≠ chksum (state.take 13)) :
    refresh ω d n = .error .invalidChecksum := by
  rw [refresh]
  simp only [read_response, hω, STATE_RESP_LEN, hlen, Nat.reduceSub]
  simp only [if_true]
  rw [if_neg hck]

open led_net in
/-- Inversion: a successful `refresh` consumed exactly one exchange, whose
reply was 14 bytes with a valid checksum, and the new state is its
decoding. -/
theorem refresh_post (ω : Oracle) (d d' : LedNet) (n n' : ℕ)
    (h : refresh ω d n = .ok (d', n')) :
    n' = n + 1 ∧ ∃ state, ω n GET_STATE_MSG = .ok state ∧
      state.length = 14 ∧ state.getD 13 0 = chksum (state.take 13) ∧
      d' = setShadow d state := by
  rw [refresh] at h
  rcases hω : ω n GET_STATE_MSG with e | state
  all_goals simp only [read_response, hω, STATE_RESP_LEN, Nat.reduceSub] at h
  · cases h
  · by_cases hlen : state.length = 14
    · simp only [hlen, if_true] at h
      by_cases hck : state.getD 13 0 = chksum (state.take 13)
      · rw [if_pos hck] at h
        cases h
        exact ⟨rfl, state, rfl, hlen, hck, rfl⟩
      · rw [if_neg hck] at h
        cases h
    · simp only [hlen, if_false] at h
      cases h

/-! ## Claims about the frame codec and state decoding -/

open led_net in
/-- A valid-checksum reply made of 13 payload bytes: common pattern for the
reply-validation lemmas. -/
theorem refresh_append_ok (ω : Oracle) (d : LedNet) (n : ℕ) (pre : List ℕ)
    (hlen : pre.length = 13) (hω : ω n GET_STATE_MSG = .ok (pre ++ [chksum pre])) :
    refresh ω d n = .ok (setShadow d (pre ++ [chksum pre]), n + 1) := by
  refine refresh_ok ω d n (pre ++ [chksum pre]) hω (by simp [hlen]) ?_
  have h1 : (pre ++ [chksum pre]).getD 13 0 = chksum pre := by
    rw [← hlen]; exact getD_append_self pre (chksum pre)
  have h2 : (pre ++ [chksum pre]).take 13 = pre := by
    rw [← hlen]; exact List.take_left pre [chksum pre]
  rw [h1, h2]

open led_net in
/-- C4: every outbound frame built by `fin_cmd!` is the payload followed by
the sum of the payload bytes modulo 256; `refresh` rejects a 14-byte reply
whose last byte is not the modular sum of the first 13 (equivalently, an
altered trailing byte always fails), and a reply carrying the correct
modular sum always passes validation. -/
theorem frame_checksum_sound :
    (∀ payload : List ℕ, fin_cmd payload = payload ++ [payload.sum % 256]) ∧
    (∀ (ω : Oracle) (d : LedNet) (n : ℕ) (state : List ℕ),
      ω n GET_STATE_MSG = .ok state → state.length = 14 →
      state.getD 13 0 ≠ chksum (state.take 13) →
      refresh ω d n = .error .invalidChecksum) ∧
    (∀ (ω : Oracle) (d : LedNet) (n : ℕ) (pre : List ℕ) (b : ℕ),
      pre.length = 13 → b ≠ chksum pre →
      ω n GET_STATE_MSG = .ok (pre ++ [b]) →
      refresh ω d n = .error .invalidChecksum) ∧
    (∀ (ω : Oracle) (d : LedNet) (n : ℕ) (pre : List ℕ),
      pre.length = 13 →
      ω n GET_STATE_MSG = .ok (pre ++ [chksum pre]) →
      refresh ω d n = .ok (setShadow d (pre ++ [chksum pre]), n + 1)) := by
  refine ⟨fun payload => ?_, refresh_err, ?_, ?_⟩
  · rw [fin_cmd, chksum_eq_sum]
  · intro ω d n pre b hlen hb hω
    refine refresh_err ω d n (pre ++ [b]) hω (by simp [hlen]) ?_
    have h1 : (pre ++ [b]).getD 13 0 = b := by
      rw [← hlen]; exact getD_append_self pre b
    have h2 : (pre ++ [b]).take 13 = pre := by
      rw [← hlen]; exact List.take_left pre [b]
    rw [h1, h2]; exact hb
  · exact refresh_append_ok

open led_net in
/-- Witness for C4: the state-query frame itself, a corrupt reply rejected,
and a correct reply accepted. -/
theorem frame_checksum_sound_witness :
    fin_cmd [0x81, 0x8a, 0x8b] = [0x81, 0x8a, 0x8b] ++ [(0x81 + (0x8a + (0x8b + 0))) % 256] ∧
    refresh (fun _ _ => .ok [0x81, 0, 0x23, 0, 0, 0, 0x10, 0x20, 0x30, 0x05, 0, 0x07, 0, 17])
      (initDev ⟨1, 2⟩ "HF-LPB100-ZJ200") 0 = .error .invalidChecksum ∧
    refresh (fun _ _ => .ok ([0x81, 0, 0x23, 0, 0, 0, 0x10, 0x20, 0x30, 0x05, 0, 0x07, 0] ++
        [chksum [0x81, 0, 0x23, 0, 0, 0, 0x10, 0x20, 0x30, 0x05, 0, 0x07, 0]]))
      (initDev ⟨1, 2⟩ "HF-LPB100-ZJ200") 0 =
      .ok (setShadow (initDev ⟨1, 2⟩ "HF-LPB100-ZJ200")
        ([0x81, 0, 0x23, 0, 0, 0, 0x10, 0x20, 0x30, 0x05, 0, 0x07, 0] ++
          [chksum [0x81, 0, 0x23, 0, 0, 0, 0x10, 0x20, 0x30, 0x05, 0, 0x07, 0]]), 1) :=
  ⟨frame_checksum_sound.1 [0x81, 0x8a, 0x8b],
   frame_checksum_sound.2.2.1 _ (initDev ⟨1, 2⟩ "HF-LPB100-ZJ200") 0
     [0x81, 0, 0x23, 0, 0, 0, 0x10, 0x20, 0x30, 0x05, 0, 0x07, 0] 17
     (by decide) (by decide) rfl,
   frame_checksum_sound.2.2.2 _ (initDev ⟨1, 2⟩ "HF-LPB100-ZJ200") 0
     [0x81, 0, 0x23, 0, 0, 0, 0x10, 0x20, 0x30, 0x05, 0, 0x07, 0]
     (by decide) rfl⟩

/-- The §8 end-to-end state-query reply: power byte `0x23` (ON), RGB bytes
`(0x10, 0x20, 0x30)`, warm byte `0x05` at offset 9, cold byte `0x07` at
offset 11, correct trailing checksum. -/
def sampleReply : List ℕ :=
  [0x81, 0, 0x23, 0, 0, 0, 0x10, 0x20, 0x30, 0x05, 0, 0x07, 0, 16]

open led_net in
/-- C5: a valid 14-byte state-query reply decodes as: `is_on` iff byte 2
equals the ON word `0x23`, RGB from bytes 6..8, warm/cold from bytes 9 and
11; the §8 scenario decodes to on/(0x10,0x20,0x30)/(5,7); and altering any
non-checksum byte of the scenario with the checksum recomputed still
decodes successfully. -/
theorem refresh_decodes_fields :
    (∀ (ω : Oracle) (d : LedNet) (n : ℕ) (state : List ℕ),
      ω n GET_STATE_MSG = .ok state → state.length = 14 →
      state.getD 13 0 = chksum (state.take 13) →
      refresh ω d n = .ok (setShadow d state, n + 1) ∧
      ((setShadow d state).is_on = true ↔ state.getD 2 0 = word.ON) ∧
      (setShadow d state).rgb_color_bytes =
        (state.getD 6 0, state.getD 7 0, state.getD 8 0) ∧
      (setShadow d state).cct_bytes = (state.getD 9 0, state.getD 11 0)) ∧
    (∀ (d : LedNet) (n : ℕ),
      refresh (fun _ _ => .ok sampleReply) d n = .ok (setShadow d sampleReply, n + 1) ∧
      (setShadow d sampleReply).is_on = true ∧
      (setShadow d sampleReply).rgb_color_bytes = (0x10, 0x20, 0x30) ∧
      (setShadow d sampleReply).cct_bytes = (0x05, 0x07)) ∧
    (∀ (d : LedNet) (n i v : ℕ), i < 13 →
      refresh (fun _ _ =>
          .ok (((sampleReply.take 13).set i v) ++ [chksum ((sampleReply.take 13).set i v)])) d n =
        .ok (setShadow d
          (((sampleReply.take 13).set i v) ++ [chksum ((sampleReply.take 13).set i v)]),
          n + 1)) := by
  refine ⟨fun ω d n state hω hlen hck => ?_, fun d n => ?_, fun d n i v hi => ?_⟩
  · refine ⟨refresh_ok ω d n state hω hlen hck, ?_, rfl, rfl⟩
    simp [setShadow, word.ON]
  · refine ⟨refresh_ok _ d n sampleReply rfl (by decide) (by decide), rfl, rfl, rfl⟩
  · exact refresh_append_ok _ d n _ (by simp [sampleReply]) rfl

open led_net in
/-- Witness for C5 at the concrete device and a concrete corrupted byte. -/
theorem refresh_decodes_fields_witness :
    refresh (fun _ _ => .ok sampleReply) (led_net.initDev ⟨1, 2⟩ "HF-LPB100-ZJ200") 0 =
      .ok (led_net.setShadow (led_net.initDev ⟨1, 2⟩ "HF-LPB100-ZJ200") sampleReply, 1) ∧
    (led_net.setShadow (led_net.initDev ⟨1, 2⟩ "HF-LPB100-ZJ200") sampleReply).is_on = true ∧
    refresh (fun _ _ =>
        .ok (((sampleReply.take 13).set 6 0xaa) ++ [chksum ((sampleReply.take 13).set 6 0xaa)]))
      (led_net.initDev ⟨1, 2⟩ "HF-LPB100-ZJ200") 0 =
      .ok (led_net.setShadow (led_net.initDev ⟨1, 2⟩ "HF-LPB100-ZJ200")
        (((sampleReply.take 13).set 6 0xaa) ++ [chksum ((sampleReply.take 13).set 6 0xaa)]), 1) :=
  ⟨(refresh_decodes_fields.2.1 (led_net.initDev ⟨1, 2⟩ "HF-LPB100-ZJ200") 0).1,
   (refresh_decodes_fields.2.1 (led_net.initDev ⟨1, 2⟩ "HF-LPB100-ZJ200") 0).2.1,
   refresh_decodes_fields.2.2 (led_net.initDev ⟨1, 2⟩ "HF-LPB100-ZJ200") 0 6 0xaa (by decide)⟩

open led_net mult in
/-- C10: after a successful refresh with warm byte `w` (offset 9) and cold
byte `c` (offset 11), the cached CCT brightness is
`1 - (255 - (w + c))/255`, i.e. `(w + c)/255`; when `w + c > 255` the value
exceeds 1, so the `cct_brightness` getter (which returns the cached field)
is not bounded to `[0, 1]`. -/
theorem cct_brightness_formula :
    ∀ (ω : Oracle) (d : LedNet) (n : ℕ) (state : List ℕ),
      ω n GET_STATE_MSG = .ok state → state.length = 14 →
      state.getD 13 0 = chksum (state.take 13) →
      refresh ω d n = .ok (setShadow d state, n + 1) ∧
      (setShadow d state).cct_brightness =
        1 - (((255 - ((state.getD 9 0 : ℤ) + (state.getD 11 0 : ℤ))) : ℤ) : ℚ) / 255 ∧
      (setShadow d state).cct_brightness =
        ((state.getD 9 0 : ℚ) + (state.getD 11 0 : ℚ)) / 255 ∧
      (255 < state.getD 9 0 + state.getD 11 0 →
        1 < (setShadow d state).cct_brightness) ∧
      cctExec ω (setShadow d state) n .cctGetBrightness =
        .ok (some (.brightness (setShadow d state).cct_brightness), setShadow d state, n) := by
  intro ω d n state hω hlen hck
  have hfield : (setShadow d state).cct_brightness =
      1 - (((255 - ((state.getD 9 0 : ℤ) + (state.getD 11 0 : ℤ))) : ℤ) : ℚ) / 255 := rfl
  have hsimp : (setShadow d state).cct_brightness =
      ((state.getD 9 0 : ℚ) + (state.getD 11 0 : ℚ)) / 255 := by
    rw [hfield]
    push_cast
    ring
  refine ⟨refresh_ok ω d n state hω hlen hck, hfield, hsimp, fun h => ?_, rfl⟩
  rw [hsimp]
  rw [one_lt_div (by norm_num : (0 : ℚ) < 255)]
  exact_mod_cast h

open led_net in
/-- Witness for C10 at a reply with both channels at 255: the cached CCT
brightness is 2. -/
theorem cct_brightness_formula_witness :
    refresh (fun _ _ => .ok [0, 0, 0, 0, 0, 0, 0, 0, 0, 255, 0, 255, 0, 254])
        (led_net.initDev ⟨1, 2⟩ "HF-LPB100-ZJ200") 0 =
      .ok (led_net.setShadow (led_net.initDev ⟨1, 2⟩ "HF-LPB100-ZJ200")
        [0, 0, 0, 0, 0, 0, 0, 0, 0, 255, 0, 255, 0, 254], 1) ∧
    (led_net.setShadow (led_net.initDev ⟨1, 2⟩ "HF-LPB100-ZJ200")
        [0, 0, 0, 0, 0, 0, 0, 0, 0, 255, 0, 255, 0, 254]).cct_brightness = 2 ∧
    1 < (led_net.setShadow (led_net.initDev ⟨1, 2⟩ "HF-LPB100-ZJ200")
        [0, 0, 0, 0, 0, 0, 0, 0, 0, 255, 0, 255, 0, 254]).cct_brightness := by
  have h := cct_brightness_formula (fun _ _ => .ok [0, 0, 0, 0, 0, 0, 0, 0, 0, 255, 0, 255, 0, 254])
    (led_net.initDev ⟨1, 2⟩ "HF-LPB100-ZJ200") 0
    [0, 0, 0, 0, 0, 0, 0, 0, 0, 255, 0, 255, 0, 254] rfl (by decide) (by decide)
  refine ⟨h.1, ?_, h.2.2.2.1 (by decide)⟩
  rw [h.2.2.1]
  norm_num

/-! ## Round-trip tolerance of the temperature conversions (C9) -/

theorem temp.TEMP_RANGE_eq : temp.TEMP_RANGE = 3700 := rfl

theorem ratTrunc_cast (q : ℚ) (h : 0 ≤ q) : ((ratTrunc q : ℕ) : ℤ) = ⌊q⌋ := by
  rw [ratTrunc]
  exact Int.toNat_of_nonneg (Int.floor_nonneg.mpr h)

theorem ratTrunc_le (q : ℚ) (h : 0 ≤ q) : ((ratTrunc q : ℕ) : ℚ) ≤ q := by
  have h1 : ((ratTrunc q : ℕ) : ℚ) = ((⌊q⌋ : ℤ) : ℚ) := by
    exact_mod_cast congrArg (fun z : ℤ => (z : ℚ)) (ratTrunc_cast q h)
  rw [h1]
  exact Int.floor_le q

theorem lt_ratTrunc_add_one (q : ℚ) (h : 0 ≤ q) : q < ((ratTrunc q : ℕ) : ℚ) + 1 := by
  have h1 : ((ratTrunc q : ℕ) : ℚ) = ((⌊q⌋ : ℤ) : ℚ) := by
    exact_mod_cast congrArg (fun z : ℤ => (z : ℚ)) (ratTrunc_cast q h)
  rw [h1]
  exact Int.lt_floor_add_one q

theorem le_ratTrunc (q : ℚ) (m : ℕ) (h : (m : ℚ) ≤ q) : m ≤ ratTrunc q := by
  rw [ratTrunc]
  have h0 : (0 : ℚ) ≤ q := le_trans (by positivity) h
  rw [Int.le_toNat (Int.floor_nonneg.mpr h0)]
  exact Int.le_floor.mpr (by exact_mod_cast h)

theorem ratTrunc_le_of_le (q : ℚ) (m : ℕ) (h : q ≤ (m : ℚ)) : ratTrunc q ≤ m := by
  rw [ratTrunc, Int.toNat_le]
  calc ⌊q⌋ ≤ ⌊(m : ℚ)⌋ := Int.floor_le_floor h
    _ = m := Int.floor_natCast m

/-- Algebraic form of `to_kelvin` away from `(0, 0)`:
`⌊2800 + 3700·c/(w + c)⌋` (as a truncation of a nonnegative value). -/
theorem tk_formula (w c : ℕ) (h : w ≠ 0 ∨ c ≠ 0) :
    temp.to_kelvin w c = ratTrunc (2800 + 3700 * (c : ℚ) / ((w : ℚ) + (c : ℚ))) := by
  rw [temp.to_kelvin, if_pos h]
  congr 1
  have hs : ((w : ℚ) + (c : ℚ)) ≠ 0 := by
    have h1 : w + c ≠ 0 := by omega
    have h2 : ((w + c : ℕ) : ℚ) ≠ 0 := Nat.cast_ne_zero.mpr h1
    push_cast at h2
    exact h2
  rw [temp.TEMP_RANGE_eq]
  rw [show ((temp.MIN_TEMP : ℕ) : ℚ) = 2800 from by norm_num [temp.MIN_TEMP]]
  rw [show (((3700 : ℕ) : ℚ)) = 3700 from by norm_num]
  field_simp
  ring

theorem tk_bounds (w c : ℕ) (h : w ≠ 0 ∨ c ≠ 0) :
    2800 ≤ temp.to_kelvin w c ∧ temp.to_kelvin w c ≤ 6500 := by
  rw [tk_formula w c h]
  have hs : (0 : ℚ) < (w : ℚ) + (c : ℚ) := by
    have h1 : 1 ≤ w + c := by omega
    have h2 : ((1 : ℕ) : ℚ) ≤ ((w + c : ℕ) : ℚ) := Nat.cast_le.mpr h1
    push_cast at h2
    linarith
  have hc0 : (0 : ℚ) ≤ 3700 * (c : ℚ) / ((w : ℚ) + (c : ℚ)) := by positivity
  have hc1 : 3700 * (c : ℚ) / ((w : ℚ) + (c : ℚ)) ≤ 3700 := by
    rw [div_le_iff hs]
    have : (c : ℚ) ≤ (w : ℚ) + (c : ℚ) := le_add_of_nonneg_left (by positivity)
    nlinarith
  constructor
  · exact le_ratTrunc _ 2800 (by push_cast; linarith)
  · exact ratTrunc_le_of_le _ 6500 (by push_cast; linarith)

/-- `to_warm_cold` with the clamp removed, for inputs already inside
`[2800, 6500]`. -/
theorem twc_unclamped (k : ℕ) (h1 : 2800 ≤ k) (h2 : k ≤ 6500) :
    temp.to_warm_cold k =
      ((⌈(255 : ℚ) * (1 - ((k - 2800 : ℕ) : ℚ) / 3700)⌉).toNat,
       (⌈(255 : ℚ) * (((k - 2800 : ℕ) : ℚ) / 3700)⌉).toNat) := by
  rw [temp.to_warm_cold]
  have hcl : min (max k temp.MIN_TEMP) temp.MAX_TEMP = k := by
    simp only [temp.MIN_TEMP, temp.MAX_TEMP]
    omega
  rw [hcl]
  norm_num [temp.MIN_TEMP, temp.TEMP_RANGE_eq]

theorem ceil_toNat_bounds (x : ℚ) (h : 0 ≤ x) :
    x ≤ (((⌈x⌉).toNat : ℕ) : ℚ) ∧ (((⌈x⌉).toNat : ℕ) : ℚ) < x + 1 := by
  have hcast : (((⌈x⌉).toNat : ℕ) : ℤ) = ⌈x⌉ := Int.toNat_of_nonneg (Int.ceil_nonneg h)
  have hcast2 : (((⌈x⌉).toNat : ℕ) : ℚ) = ((⌈x⌉ : ℤ) : ℚ) := by exact_mod_cast congrArg (fun z : ℤ => (z : ℚ)) hcast
  rw [hcast2]
  exact ⟨Int.le_ceil x, Int.ceil_lt_add_one x⟩

/-- One full round trip `kelvin → warm/cold → kelvin` moves a Kelvin value
inside `[2800, 6500]` by at most 300. -/
theorem roundtrip_close (k : ℕ) (h1 : 2800 ≤ k) (h2 : k ≤ 6500) :
    k ≤ temp.to_kelvin (temp.to_warm_cold k).1 (temp.to_warm_cold k).2 + 300 ∧
    temp.to_kelvin (temp.to_warm_cold k).1 (temp.to_warm_cold k).2 ≤ k + 300 := by
  rw [twc_unclamped k h1 h2]
  set t : ℚ := ((k - 2800 : ℕ) : ℚ) / 3700 with ht
  have htnn : 0 ≤ t := by
    rw [ht]
    exact div_nonneg (Nat.cast_nonneg _) (by norm_num)
  have ht1 : t ≤ 1 := by
    rw [ht, div_le_one (by norm_num)]
    have h3 : (k - 2800 : ℕ) ≤ 3700 := by omega
    exact_mod_cast h3
  have hkt : (k : ℚ) = 2800 + 3700 * t := by
    rw [ht]
    have h4 : ((k - 2800 : ℕ) : ℚ) = (k : ℚ) - 2800 := by
      push_cast [h1]
      ring
    rw [h4]
    ring
  set w' : ℕ := (⌈(255 : ℚ) * (1 - t)⌉).toNat with hw'
  set c' : ℕ := (⌈(255 : ℚ) * t⌉).toNat with hc'
  have hwb := ceil_toNat_bounds ((255 : ℚ) * (1 - t)) (by nlinarith)
  have hcb := ceil_toNat_bounds ((255 : ℚ) * t) (mul_nonneg (by norm_num) htnn)
  rw [← hw'] at hwb
  rw [← hc'] at hcb
  by_cases hc0 : c' = 0
  · have ht0 : t = 0 := by
      have h5 : (255 : ℚ) * t ≤ 0 := by
        have := hcb.1
        rw [hc0] at this
        push_cast at this
        linarith
      nlinarith
    have hk0 : k = 2800 := by
      have : (k : ℚ) = 2800 := by rw [hkt, ht0]; ring
      exact_mod_cast this
    have hwv : w' = 255 := by
      rw [hw', ht0]
      norm_num [Int.ceil_ofNat]
      decide
    rw [hc0, hwv]
    have : temp.to_kelvin 255 0 = 2800 := by
      rw [tk_formula 255 0 (Or.inl (by omega))]
      norm_num [ratTrunc]
      decide
    simp only [this]
    omega
  · by_cases hw0 : w' = 0
    · have ht2 : t = 1 := by
        have h5 : (255 : ℚ) * (1 - t) ≤ 0 := by
          have := hwb.1
          rw [hw0] at this
          push_cast at this
          linarith
        nlinarith
      have hk6 : k = 6500 := by
        have : (k : ℚ) = 6500 := by rw [hkt, ht2]; ring
        exact_mod_cast this
      have hcv : c' = 255 := by
        rw [hc', ht2]
        norm_num [Int.ceil_ofNat]
        decide
      rw [hw0, hcv]
      have : temp.to_kelvin 0 255 = 6500 := by
        rw [tk_formula 0 255 (Or.inr (by omega))]
        norm_num [ratTrunc]
        decide
      simp only [this]
      omega
    · -- both channels nonzero after the round trip
      have hspos : (0 : ℚ) < (w' : ℚ) + (c' : ℚ) := by
        have h5 : 1 ≤ w' + c' := by omega
        have h6 : ((1 : ℕ) : ℚ) ≤ ((w' + c' : ℕ) : ℚ) := Nat.cast_le.mpr h5
        push_cast at h6
        linarith
      have hs255 : (255 : ℚ) ≤ (w' : ℚ) + (c' : ℚ) := by
        have := hwb.1
        have := hcb.1
        nlinarith
      have hnum1 : (1 - t) * (c' : ℚ) - t * (w' : ℚ) ≤ 1 := by
        nlinarith [hcb.2, hwb.1, htnn, ht1]
      have hnum2 : -1 ≤ (1 - t) * (c' : ℚ) - t * (w' : ℚ) := by
        nlinarith [hcb.1, hwb.2, htnn, ht1]
      have hrew : (c' : ℚ) / ((w' : ℚ) + (c' : ℚ)) - t =
          ((1 - t) * (c' : ℚ) - t * (w' : ℚ)) / ((w' : ℚ) + (c' : ℚ)) := by
        field_simp
        ring
      have hkey1 : (c' : ℚ) / ((w' : ℚ) + (c' : ℚ)) - t ≤ 1 / 255 := by
        rw [hrew, div_le_div_iff hspos (by norm_num)]
        nlinarith
      have hkey2 : -(1 / 255 : ℚ) ≤ (c' : ℚ) / ((w' : ℚ) + (c' : ℚ)) - t := by
        rw [hrew]
        rw [show -(1 / 255 : ℚ) = (-1) / 255 from by ring]
        rw [div_le_div_iff (by norm_num) hspos]
        nlinarith
      rw [tk_formula w' c' (Or.inl hw0)]
      set v : ℚ := 2800 + 3700 * (c' : ℚ) / ((w' : ℚ) + (c' : ℚ)) with hv
      have hvk1 : v ≤ (k : ℚ) + 15 := by
        rw [hv, hkt, mul_div_assoc]
        linarith [hkey1]
      have hvk2 : (k : ℚ) - 15 ≤ v := by
        rw [hv, hkt, mul_div_assoc]
        linarith [hkey2]
      have hvnn : (0 : ℚ) ≤ v := by
        rw [hv]
        positivity
      constructor
      · -- k ≤ round trip + 300
        have h7 : (k : ℚ) < ((ratTrunc v : ℕ) : ℚ) + 16 := by
          have := lt_ratTrunc_add_one v hvnn
          linarith
        have h8 : k < ratTrunc v + 16 := by exact_mod_cast h7
        omega
      · -- round trip ≤ k + 300
        have h7 : ratTrunc v ≤ k + 15 := by
          apply ratTrunc_le_of_le
          push_cast
          linarith
        omega

open temp in
/-- C9: for every warm/cold byte pair with both bytes nonzero, the round
trip `to_warm_cold (to_kelvin w c)` followed by `to_kelvin` lands within
300 Kelvin of `to_kelvin w c` (the round trip is lossy by design), and
`(0, 0)` maps to Kelvin `0` exactly. -/
theorem kelvin_roundtrip_tolerance :
    (∀ w c : ℕ, 1 ≤ w → w ≤ 255 → 1 ≤ c → c ≤ 255 →
      temp.to_kelvin w c ≤
        temp.to_kelvin (temp.to_warm_cold (temp.to_kelvin w c)).1
          (temp.to_warm_cold (temp.to_kelvin w c)).2 + 300 ∧
      temp.to_kelvin (temp.to_warm_cold (temp.to_kelvin w c)).1
          (temp.to_warm_cold (temp.to_kelvin w c)).2 ≤ temp.to_kelvin w c + 300) ∧
    temp.to_kelvin 0 0 = 0 := by
  refine ⟨fun w c hw1 hw2 hc1 hc2 => ?_, by simp [temp.to_kelvin]⟩
  have h := tk_bounds w c (Or.inl (by omega))
  exact roundtrip_close (temp.to_kelvin w c) h.1 h.2

/-! ## Setter postconditions (C6) -/

open led_net in
theorem setShadow_congr (d1 d : LedNet) (s : List ℕ)
    (h1 : d1.addr = d.addr) (h2 : d1.model = d.model) :
    setShadow d1 s = setShadow d s := by
  simp only [setShadow, h1, h2]

open led_net in
/-- The returned state of a refresh performed after exchange `n`: the last
exchange of the call was a state query whose 14-byte, checksum-valid reply
decodes to the returned shadow state. -/
def refreshedFrom (ω : Oracle) (d d' : LedNet) (n n' : ℕ) : Prop :=
  n < n' ∧ ∃ reply, ω (n' - 1) GET_STATE_MSG = .ok reply ∧ reply.length = 14 ∧
    reply.getD 13 0 = chksum (reply.take 13) ∧ d' = setShadow d reply

open led_net in
theorem refreshedFrom_mono (ω : Oracle) (d1 d d' : LedNet) (n n1 n' : ℕ)
    (h : refreshedFrom ω d1 d' n1 n') (hn : n ≤ n1)
    (ha : d1.addr = d.addr) (hm : d1.model = d.model) :
    refreshedFrom ω d d' n n' := by
  obtain ⟨hlt, reply, h1, h2, h3, h4⟩ := h
  exact ⟨by omega, reply, h1, h2, h3,
    by rw [h4]; exact setShadow_congr d1 d reply ha hm⟩

open led_net in
theorem refresh_refreshedFrom (ω : Oracle) (d d1 : LedNet) (nlow n : ℕ)
    (d' : LedNet) (n' : ℕ) (h : refresh ω d1 n = .ok (d', n')) (hn : nlow ≤ n)
    (ha : d1.addr = d.addr) (hm : d1.model = d.model) :
    refreshedFrom ω d d' nlow n' := by
  obtain ⟨hn', reply, h1, h2, h3, h4⟩ := refresh_post ω d1 d' n n' h
  subst hn'
  refine ⟨by omega, reply, ?_, h2, h3, ?_⟩
  · simpa using h1
  · rw [h4]
    exact setShadow_congr d1 d reply ha hm

open led_net in
theorem write_command_post (ω : Oracle) (n : ℕ) (cmd expected : List ℕ)
    (n1 : ℕ) (h : write_command ω n cmd expected = .ok n1) : n1 = n + 1 := by
  rw [write_command] at h
  split at h
  · cases h
  · split at h
    · cases h
      rfl
    · cases h

open led_net in
theorem set_on_post (ω : Oracle) (d : LedNet) (b : Bool) (n : ℕ)
    (d' : LedNet) (n' : ℕ) (h : set_on ω d b n = .ok (d', n')) :
    refreshedFrom ω d d' n n' := by
  rw [set_on] at h
  split at h
  · cases h
  · next n1 heq =>
      exact refresh_refreshedFrom ω d d n n1 d' n' h
        (by rw [write_command_post _ _ _ _ _ heq]; omega) rfl rfl

open led_net in
theorem rgb_set_exact_post (ω : Oracle) (d : LedNet) (c : Color) (n : ℕ)
    (d' : LedNet) (n' : ℕ) (h : rgb_set_exact ω d c n = .ok (d', n')) :
    refreshedFrom ω d d' n n' := by
  simp only [rgb_set_exact] at h
  split at h
  · cases h
  · next n1 heq =>
      exact refresh_refreshedFrom ω d d n n1 d' n' h
        (by rw [write_command_post _ _ _ _ _ heq]; omega) rfl rfl

open led_net in
theorem rgb_set_post (ω : Oracle) (d : LedNet) (c : Color) (b : ℚ) (n : ℕ)
    (d' : LedNet) (n' : ℕ) (h : rgb_set ω d c b n = .ok (d', n')) :
    refreshedFrom ω d d' n n' := by
  rw [rgb_set] at h
  exact rgb_set_exact_post _ _ _ _ _ _ h

open led_net in
theorem cct_set_post (ω : Oracle) (d : LedNet) (k : ℕ) (b : ℚ) (n : ℕ)
    (d' : LedNet) (n' : ℕ) (h : cct_set ω d k b n = .ok (d', n')) :
    refreshedFrom ω d d' n n' := by
  simp only [cct_set] at h
  split at h
  · cases h
  · next n1 heq =>
      exact refresh_refreshedFrom ω d d n n1 d' n' h
        (by rw [write_command_post _ _ _ _ _ heq]; omega) rfl rfl

open led_net in
theorem rgb_set_color_post (ω : Oracle) (d : LedNet) (c : Color) (n : ℕ)
    (d' : LedNet) (n' : ℕ) (h : rgb_set_color ω d c n = .ok (d', n')) :
    refreshedFrom ω d d' n n' := by
  rw [rgb_set_color] at h
  split at h
  · cases h
  · next d1 n1 heq =>
      obtain ⟨hn1, reply, _, _, _, hd1⟩ := refresh_post ω d d1 n n1 heq
      exact refreshedFrom_mono ω d1 d d' n n1 n'
        (rgb_set_post _ _ _ _ _ _ _ h) (by omega)
        (by rw [hd1]; rfl) (by rw [hd1]; rfl)

open led_net in
theorem rgb_set_brightness_post (ω : Oracle) (d : LedNet) (b : ℚ) (n : ℕ)
    (d' : LedNet) (n' : ℕ) (h : rgb_set_brightness ω d b n = .ok (d', n')) :
    refreshedFrom ω d d' n n' := by
  rw [rgb_set_brightness] at h
  split at h
  · cases h
  · next d1 n1 heq =>
      obtain ⟨hn1, reply, _, _, _, hd1⟩ := refresh_post ω d d1 n n1 heq
      exact refreshedFrom_mono ω d1 d d' n n1 n'
        (rgb_set_post _ _ _ _ _ _ _ h) (by omega)
        (by rw [hd1]; rfl) (by rw [hd1]; rfl)

open led_net in
theorem cct_set_temperature_post (ω : Oracle) (d : LedNet) (k : ℕ) (n : ℕ)
    (d' : LedNet) (n' : ℕ) (h : cct_set_temperature ω d k n = .ok (d', n')) :
    refreshedFrom ω d d' n n' := by
  rw [cct_set_temperature] at h
  split at h
  · cases h
  · next d1 n1 heq =>
      obtain ⟨hn1, reply, _, _, _, hd1⟩ := refresh_post ω d d1 n n1 heq
      exact refreshedFrom_mono ω d1 d d' n n1 n'
        (cct_set_post _ _ _ _ _ _ _ h) (by omega)
        (by rw [hd1]; rfl) (by rw [hd1]; rfl)

open led_net in
theorem cct_set_brightness_post (ω : Oracle) (d : LedNet) (b : ℚ) (n : ℕ)
    (d' : LedNet) (n' : ℕ) (h : cct_set_brightness ω d b n = .ok (d', n')) :
    refreshedFrom ω d d' n n' := by
  rw [cct_set_brightness] at h
  split at h
  · cases h
  · next d1 n1 heq =>
      obtain ⟨hn1, reply, _, _, _, hd1⟩ := refresh_post ω d d1 n n1 heq
      exact refreshedFrom_mono ω d1 d d' n n1 n'
        (cct_set_post _ _ _ _ _ _ _ h) (by omega)
        (by rw [hd1]; rfl) (by rw [hd1]; rfl)

open led_net in
theorem refreshedFrom_refresh (ω : Oracle) (d d' : LedNet) (n n' : ℕ)
    (h : refreshedFrom ω d d' n n') : refresh ω d (n' - 1) = .ok (d', n') := by
  obtain ⟨hlt, reply, h1, h2, h3, h4⟩ := h
  rw [h4]
  have := refresh_ok ω d (n' - 1) reply h1 h2 h3
  rw [this]
  congr 1
  rw [Prod.mk.injEq]
  exact ⟨rfl, by omega⟩

open led_net in
/-- C6: every setter (`set_on`, `rgb_set`, `rgb_set_exact`,
`rgb_set_color`, `rgb_set_brightness`, `cct_set`, `cct_set_temperature`,
`cct_set_brightness`) ends with a refresh whose failure propagates:
whenever a setter returns `Ok`, its last exchange was a state query whose
valid reply decodes to exactly the returned shadow state (`refreshedFrom`),
so the shadow state is never observably stale; equivalently the returned
state is the result of a refresh performed as the call's final exchange. -/
theorem setters_end_with_refresh :
    (∀ (ω : Oracle) (d : LedNet) (b : Bool) (n : ℕ) (d' : LedNet) (n' : ℕ),
      set_on ω d b n = .ok (d', n') → refreshedFrom ω d d' n n') ∧
    (∀ (ω : Oracle) (d : LedNet) (c : Color) (n : ℕ) (d' : LedNet) (n' : ℕ),
      rgb_set_exact ω d c n = .ok (d', n') → refreshedFrom ω d d' n n') ∧
    (∀ (ω : Oracle) (d : LedNet) (c : Color) (b : ℚ) (n : ℕ) (d' : LedNet) (n' : ℕ),
      rgb_set ω d c b n = .ok (d', n') → refreshedFrom ω d d' n n') ∧
    (∀ (ω : Oracle) (d : LedNet) (c : Color) (n : ℕ) (d' : LedNet) (n' : ℕ),
      rgb_set_color ω d c n = .ok (d', n') → refreshedFrom ω d d' n n') ∧
    (∀ (ω : Oracle) (d : LedNet) (b : ℚ) (n : ℕ) (d' : LedNet) (n' : ℕ),
      rgb_set_brightness ω d b n = .ok (d', n') → refreshedFrom ω d d' n n') ∧
    (∀ (ω : Oracle) (d : LedNet) (k : ℕ) (b : ℚ) (n : ℕ) (d' : LedNet) (n' : ℕ),
      cct_set ω d k b n = .ok (d', n') → refreshedFrom ω d d' n n') ∧
    (∀ (ω : Oracle) (d : LedNet) (k : ℕ) (n : ℕ) (d' : LedNet) (n' : ℕ),
      cct_set_temperature ω d k n = .ok (d', n') → refreshedFrom ω d d' n n') ∧
    (∀ (ω : Oracle) (d : LedNet) (b : ℚ) (n : ℕ) (d' : LedNet) (n' : ℕ),
      cct_set_brightness ω d b n = .ok (d', n') → refreshedFrom ω d d' n n') ∧
    (∀ (ω : Oracle) (d d' : LedNet) (n n' : ℕ),
      refreshedFrom ω d d' n n' → refresh ω d (n' - 1) = .ok (d', n')) :=
  ⟨set_on_post, rgb_set_exact_post, rgb_set_post, rgb_set_color_post,
   rgb_set_brightness_post, cct_set_post, cct_set_temperature_post,
   cct_set_brightness_post, refreshedFrom_refresh⟩

open led_net in
/-- Witness for C6: a concrete successful `set_on` run (power echo, then a
valid state reply) whose returned state decodes the final reply. -/
theorem setters_end_with_refresh_witness :
    set_on (fun m _ => if m = 0 then .ok ON_RESPONSE else .ok sampleReply)
        (initDev ⟨1, 2⟩ "HF-LPB100-ZJ200") true 0 =
      .ok (setShadow (initDev ⟨1, 2⟩ "HF-LPB100-ZJ200") sampleReply, 2) ∧
    refreshedFrom (fun m _ => if m = 0 then .ok ON_RESPONSE else .ok sampleReply)
      (initDev ⟨1, 2⟩ "HF-LPB100-ZJ200")
      (setShadow (initDev ⟨1, 2⟩ "HF-LPB100-ZJ200") sampleReply) 0 2 := by
  have h1 : set_on (fun m _ => if m = 0 then .ok ON_RESPONSE else .ok sampleReply)
      (initDev ⟨1, 2⟩ "HF-LPB100-ZJ200") true 0 =
      .ok (setShadow (initDev ⟨1, 2⟩ "HF-LPB100-ZJ200") sampleReply, 2) := rfl
  exact ⟨h1, setters_end_with_refresh.1 _ _ true 0 _ 2 h1⟩

/-! ## Dispatch claims (C1) -/

theorem isCNS_iff (r : mult.HandlerResult) :
    r.isCNS = true ↔ r = .error .commandNotSupported := by
  rcases r with e | x
  · cases e
    · simp [mult.HandlerResult.isCNS]
    · simp only [mult.HandlerResult.isCNS, Bool.false_eq_true, false_iff]
      intro h
      cases h
  · simp only [mult.HandlerResult.isCNS, Bool.false_eq_true, false_iff]
    intro h
    cases h

open led_net mult in
/-- The instrumented dispatch as a chain of `isCNS` tests. -/
theorem execTrace_eq (ω : Oracle) (d : LedNet) (n : ℕ) (command : Command) :
    execTrace ω d n command =
      if (rgbExec ω d n command).isCNS then
        if (cctExec ω d n command).isCNS then
          if (smartDeviceExec ω d n command).isCNS then
            (.error .commandNotSupported, [.rgb, .cct, .smartDevice])
          else (smartDeviceExec ω d n command, [.rgb, .cct, .smartDevice])
        else (cctExec ω d n command, [.rgb, .cct])
      else (rgbExec ω d n command, [.rgb]) := by
  rw [execTrace]
  rcases h1 : rgbExec ω d n command with e1 | x1
  · cases e1 with
    | commandNotSupported =>
        rcases h2 : cctExec ω d n command with e2 | x2
        · cases e2 with
          | commandNotSupported =>
              rcases h3 : smartDeviceExec ω d n command with e3 | x3
              · cases e3 <;> simp [HandlerResult.isCNS]
              · simp [HandlerResult.isCNS]
          | ioFail e => simp [HandlerResult.isCNS]
        · simp [HandlerResult.isCNS]
    | ioFail e => simp [HandlerResult.isCNS]
  · simp [HandlerResult.isCNS]

open led_net mult in
/-- C1: dispatch for `Device::LedNet` tries the declared capability
handlers in order — `RgbCommands`, then `CctCommands`, then the base
`SmartDeviceCommands` last; the first result that is not
`Err(CommandNotSupported)` (an `Ok` or any other error) is returned
immediately with no later handler invoked; if every handler signals
`CommandNotSupported` the dispatch returns `Err(CommandNotSupported)`
after trying each exactly once.  In particular `GetAddress` falls through
the RGB and CCT handlers to the base handler, and `RgbSet` is handled by
the RGB handler alone. -/
theorem dispatch_first_refusal (ω : Oracle) (d : LedNet) (n : ℕ)
    (command : Command) :
    (¬ (rgbExec ω d n command).isCNS = true →
      execTrace ω d n command = (rgbExec ω d n command, [.rgb])) ∧
    ((rgbExec ω d n command).isCNS = true →
      ¬ (cctExec ω d n command).isCNS = true →
      execTrace ω d n command = (cctExec ω d n command, [.rgb, .cct])) ∧
    ((rgbExec ω d n command).isCNS = true →
      (cctExec ω d n command).isCNS = true →
      ¬ (smartDeviceExec ω d n command).isCNS = true →
      execTrace ω d n command =
        (smartDeviceExec ω d n command, [.rgb, .cct, .smartDevice])) ∧
    ((rgbExec ω d n command).isCNS = true →
      (cctExec ω d n command).isCNS = true →
      (smartDeviceExec ω d n command).isCNS = true →
      execTrace ω d n command =
        (.error .commandNotSupported, [.rgb, .cct, .smartDevice])) ∧
    execTrace ω d n .getAddress =
      (.ok (some (.address d.addr.ip), d, n), [.rgb, .cct, .smartDevice]) ∧
    (∀ (c : Color) (b : ℚ), (execTrace ω d n (.rgbSet c b)).2 = [.rgb]) ∧
    exec ω d n command = (execTrace ω d n command).1 := by
  refine ⟨fun hr => ?_, fun hr hc => ?_, fun hr hc hs => ?_, fun hr hc hs => ?_,
    ?_, fun c b => ?_, rfl⟩
  · rw [execTrace_eq, if_neg hr]
  · rw [execTrace_eq, if_pos hr, if_neg hc]
  · rw [execTrace_eq, if_pos hr, if_pos hc, if_neg hs]
  · rw [execTrace_eq, if_pos hr, if_pos hc, if_pos hs]
  · rfl
  · rw [execTrace_eq]
    have hr : ¬ (rgbExec ω d n (.rgbSet c b)).isCNS = true := by
      rw [rgbExec]
      rcases rgb_set ω d c b n with e | x
      · simp [HandlerResult.isCNS]
      · simp [HandlerResult.isCNS]
    rw [if_neg hr]

open led_net mult in
/-- Witness for C1: with a concrete device and oracle, `GetAddress` falls
through to the base handler (all three handlers tried, the first two
refusing), and an unsupported command (`MonoSet`) is refused by all
three. -/
theorem dispatch_first_refusal_witness :
    execTrace (fun _ _ => .error .timedOut) (initDev ⟨7, 9⟩ "HF-LPB100-ZJ200") 0 .getAddress =
      (.ok (some (.address 7), initDev ⟨7, 9⟩ "HF-LPB100-ZJ200", 0),
        [.rgb, .cct, .smartDevice]) ∧
    execTrace (fun _ _ => .error .timedOut) (initDev ⟨7, 9⟩ "HF-LPB100-ZJ200") 0 (.monoSet 1) =
      (.error .commandNotSupported, [.rgb, .cct, .smartDevice]) ∧
    (execTrace (fun _ _ => .error .timedOut) (initDev ⟨7, 9⟩ "HF-LPB100-ZJ200") 0
      (.rgbGetExact)).2 = [.rgb] :=
  ⟨(dispatch_first_refusal (fun _ _ => .error .timedOut)
      (initDev ⟨7, 9⟩ "HF-LPB100-ZJ200") 0 .getAddress).2.2.2.2.1,
   (dispatch_first_refusal (fun _ _ => .error .timedOut)
      (initDev ⟨7, 9⟩ "HF-LPB100-ZJ200") 0 (.monoSet 1)).2.2.2.1 rfl rfl rfl,
   by
    rw [(dispatch_first_refusal (fun _ _ => .error .timedOut)
      (initDev ⟨7, 9⟩ "HF-LPB100-ZJ200") 0 (.rgbGetExact)).1 (by decide)]⟩

/-! ## Discovery claims (C7, C8)

The `discover` receive loop is `while let Ok(maybe_dev) = disco_recv(..)`:
the first `Err` from `disco_recv` — whether the read timeout or a failed
initial refresh — ends the loop.  The scan does NOT continue past a failed
refresh; it returns what was collected before it, without surfacing the
error.  `from_address` instead propagates any `disco_recv` error via `?`,
including the receive timeout (so a pure timeout yields `Err`, not
`Ok(None)`). -/

open led_net in
/-- C7 counterexample: a first discovery reply whose initial refresh fails
(exchange 0 errors) ends the whole broadcast scan — `discover` returns no
devices — even though the second, identical reply would have produced a
device (its refresh at exchange 1 succeeds). -/
theorem discover_stops_counterexample :
    discover (.ok ())
      [.ok (some ["192.168.1.212", "F0FE6B5A6D68", "HF-LPB100-ZJ200"], ⟨3232235988, 48899⟩),
       .ok (some ["192.168.1.212", "F0FE6B5A6D68", "HF-LPB100-ZJ200"], ⟨3232235988, 48899⟩)]
      (fun m _ => if m = 0 then .error (.other 0) else .ok sampleReply) = .ok none ∧
    disco_recv
      (.ok (some ["192.168.1.212", "F0FE6B5A6D68", "HF-LPB100-ZJ200"], ⟨3232235988, 48899⟩))
      (fun m _ => if m = 0 then .error (.other 0) else .ok sampleReply) 1 =
      .ok (some (setShadow (initDev ⟨3232235988, 48899⟩ "HF-LPB100-ZJ200") sampleReply), 2) :=
  ⟨rfl, rfl⟩

open led_net in
/-- C7 (amended): a discovered device whose initial refresh fails makes
`disco_recv` return that error; the broadcast receive loop terminates at
the first `disco_recv` error, collecting no further replies, and
`discover` surfaces no receive-side error; resolving a single direct
address (`from_address`) fails outright with that error. -/
theorem discovery_refresh_failure :
    (∀ (fields : List String) (addr : SockAddr) (ω : Oracle) (n : ℕ)
      (m_id model : String) (e : IoErr),
      fields.get? 2 = some m_id →
      SUPPORTED.find? (fun x => x == m_id) = some model →
      refresh ω (initDev addr model) n = .error e →
      disco_recv (.ok (some fields, addr)) ω n = .error e) ∧
    (∀ (recv : DiscoReply) (rest : List DiscoReply) (ω : Oracle) (n : ℕ) (e : IoErr),
      disco_recv recv ω n = .error e → discoverLoop (recv :: rest) ω n = []) ∧
    (∀ (recvs : List DiscoReply) (ω : Oracle),
      ∃ r, discover (.ok ()) recvs ω = .ok r) ∧
    (∀ (recv : DiscoReply) (ω : Oracle) (n : ℕ) (e : IoErr),
      disco_recv recv ω n = .error e →
      from_address (.ok ()) recv ω n = .error e) := by
  refine ⟨fun fields addr ω n m_id model e h1 h2 h3 => ?_,
    fun recv rest ω n e h => ?_, fun recvs ω => ?_, fun recv ω n e h => ?_⟩
  · simp only [disco_recv, h1, h2, h3]
  · simp only [discoverLoop, h]
  · simp only [discover]
    by_cases hE : (discoverLoop recvs ω 0).isEmpty
    · exact ⟨none, by simp [hE]⟩
    · exact ⟨some (discoverLoop recvs ω 0), by simp [hE]⟩
  · simp only [from_address, h]

open led_net in
/-- Witness for C7 at the concrete failing-refresh reply. -/
theorem discovery_refresh_failure_witness :
    disco_recv
      (.ok (some ["192.168.1.212", "F0FE6B5A6D68", "HF-LPB100-ZJ200"], ⟨3232235988, 48899⟩))
      (fun m _ => if m = 0 then .error (.other 0) else .ok sampleReply) 0 =
      .error (.other 0) ∧
    discoverLoop
      [.ok (some ["192.168.1.212", "F0FE6B5A6D68", "HF-LPB100-ZJ200"], ⟨3232235988, 48899⟩)]
      (fun m _ => if m = 0 then .error (.other 0) else .ok sampleReply) 0 = [] ∧
    from_address (.ok ())
      (.ok (some ["192.168.1.212", "F0FE6B5A6D68", "HF-LPB100-ZJ200"], ⟨3232235988, 48899⟩))
      (fun m _ => if m = 0 then .error (.other 0) else .ok sampleReply) 0 =
      .error (.other 0) :=
  ⟨discovery_refresh_failure.1 ["192.168.1.212", "F0FE6B5A6D68", "HF-LPB100-ZJ200"]
      ⟨3232235988, 48899⟩ _ 0 "HF-LPB100-ZJ200" "HF-LPB100-ZJ200" (.other 0) rfl rfl rfl,
   discovery_refresh_failure.2.1 _ [] _ 0 (.other 0)
     (discovery_refresh_failure.1 ["192.168.1.212", "F0FE6B5A6D68", "HF-LPB100-ZJ200"]
       ⟨3232235988, 48899⟩ _ 0 "HF-LPB100-ZJ200" "HF-LPB100-ZJ200" (.other 0) rfl rfl rfl),
   discovery_refresh_failure.2.2.2 _ _ 0 (.other 0)
     (discovery_refresh_failure.1 ["192.168.1.212", "F0FE6B5A6D68", "HF-LPB100-ZJ200"]
       ⟨3232235988, 48899⟩ _ 0 "HF-LPB100-ZJ200" "HF-LPB100-ZJ200" (.other 0) rfl rfl rfl)⟩

open led_net in
/-- C8 counterexample: when the receive timeout elapses with no datagram,
`from_address` returns the timeout error — not the claimed `Ok(None)`. -/
theorem from_address_timeout_counterexample :
    from_address (.ok ()) (.error .timedOut) (fun _ _ => .error .timedOut) 0 =
      .error .timedOut ∧
    from_address (.ok ()) (.error .timedOut) (fun _ _ => .error .timedOut) 0 ≠
      .ok none := by
  have h0 : from_address (.ok ()) (.error .timedOut) (fun _ _ => .error .timedOut) 0 =
      (.error .timedOut : Except IoErr (Option LedNet)) := rfl
  refine ⟨h0, ?_⟩
  rw [h0]
  intro h
  cases h

open led_net in
/-- C8 (amended): `from_address` propagates a receive error — the timeout
included — rather than returning `Ok(None)`; `Ok(None)` arises when a
datagram is received but is malformed or names an unsupported model.  In
the broadcast receive loop the timeout is the normal end-of-replies
condition and `discover` never surfaces a receive-side error; a discovery
reply with an unsupported model identifier is silently skipped, yielding
no device and no error. -/
theorem discovery_timeout_and_unsupported :
    (∀ (ω : Oracle) (n : ℕ) (e : IoErr),
      from_address (.ok ()) (.error e) ω n = .error e) ∧
    (∀ (rest : List DiscoReply) (ω : Oracle) (n : ℕ) (e : IoErr),
      discoverLoop ((.error e) :: rest) ω n = []) ∧
    (∀ (recvs : List DiscoReply) (ω : Oracle),
      ∃ r, discover (.ok ()) recvs ω = .ok r) ∧
    (∀ (fields : List String) (addr : SockAddr) (ω : Oracle) (n : ℕ) (m_id : String),
      fields.get? 2 = some m_id →
      SUPPORTED.find? (fun x => x == m_id) = none →
      disco_recv (.ok (some fields, addr)) ω n = .ok (none, n)) ∧
    (∀ (fields : List String) (addr : SockAddr) (ω : Oracle) (n : ℕ) (m_id : String),
      fields.get? 2 = some m_id →
      SUPPORTED.find? (fun x => x == m_id) = none →
      from_address (.ok ()) (.ok (some fields, addr)) ω n = .ok none) := by
  refine ⟨fun ω n e => ?_, fun rest ω n e => ?_, fun recvs ω => ?_,
    fun fields addr ω n m_id h1 h2 => ?_, fun fields addr ω n m_id h1 h2 => ?_⟩
  · rfl
  · rfl
  · simp only [discover]
    by_cases hE : (discoverLoop recvs ω 0).isEmpty
    · exact ⟨none, by simp [hE]⟩
    · exact ⟨some (discoverLoop recvs ω 0), by simp [hE]⟩
  · simp only [disco_recv, h1, h2]
  · simp only [from_address, disco_recv, h1, h2]

open led_net in
/-- Witness for C8: a reply naming the unsupported model `"FOO"` is
skipped with no error, and a timeout at `from_address` propagates. -/
theorem discovery_timeout_and_unsupported_witness :
    disco_recv (.ok (some ["192.168.1.1", "AA", "FOO"], ⟨1, 2⟩))
      (fun _ _ => .error .timedOut) 0 = .ok (none, 0) ∧
    from_address (.ok ()) (.ok (some ["192.168.1.1", "AA", "FOO"], ⟨1, 2⟩))
      (fun _ _ => .error .timedOut) 0 = .ok none ∧
    from_address (.ok ()) (.error .timedOut) (fun _ _ => .error .timedOut) 5 =
      .error .timedOut :=
  ⟨discovery_timeout_and_unsupported.2.2.2.1 ["192.168.1.1", "AA", "FOO"] ⟨1, 2⟩ _ 0 "FOO"
     rfl rfl,
   discovery_timeout_and_unsupported.2.2.2.2 ["192.168.1.1", "AA", "FOO"] ⟨1, 2⟩ _ 0 "FOO"
     rfl rfl,
   discovery_timeout_and_unsupported.1 _ 5 .timedOut⟩

/-- Witness for C9 at the byte pair `(5, 7)`. -/
theorem kelvin_roundtrip_tolerance_witness :
    temp.to_kelvin 5 7 ≤
      temp.to_kelvin (temp.to_warm_cold (temp.to_kelvin 5 7)).1
        (temp.to_warm_cold (temp.to_kelvin 5 7)).2 + 300 ∧
    temp.to_kelvin (temp.to_warm_cold (temp.to_kelvin 5 7)).1
        (temp.to_warm_cold (temp.to_kelvin 5 7)).2 ≤ temp.to_kelvin 5 7 + 300 :=
  kelvin_roundtrip_tolerance.1 5 7 (by decide) (by decide) (by decide) (by decide)

end Homectl
